import Mathlib

/-!
Verification of the DigitalAquarium repository (src/js/main.js).

JavaScript numbers are modelled as rationals (ℚ); the claims at stake are
about exact arithmetic structure, interval bounds and control flow, none of
which depend on floating-point rounding.  Library functions from the
rendering stack (Math.sin, Math.sqrt, THREE.Quaternion.slerp,
THREE.Quaternion.setFromUnitVectors) are external collaborators; they are
abstracted as fields of a MathOps record over which the step function is
parameterised.  Pure vector arithmetic (THREE.Vector3.applyQuaternion,
add, sub, multiplyScalar, Math.max / Math.min) is implemented concretely,
following the library formulas the code calls into.
-/

namespace DigitalAquarium

/-- A 3D vector, mirroring THREE.Vector3 with rational components. -/
structure Vec3 where
  x : ℚ
  y : ℚ
  z : ℚ
deriving DecidableEq, Repr

/-- A quaternion, mirroring THREE.Quaternion with rational components. -/
structure Quat where
  qx : ℚ
  qy : ℚ
  qz : ℚ
  qw : ℚ
deriving DecidableEq, Repr

namespace Vec3

/-- Componentwise vector addition, as in THREE.Vector3.add. -/
def add (a b : Vec3) : Vec3 := ⟨a.x + b.x, a.y + b.y, a.z + b.z⟩

/-- Componentwise vector difference a - b, as in THREE.Vector3.subVectors. -/
def sub (a b : Vec3) : Vec3 := ⟨a.x - b.x, a.y - b.y, a.z - b.z⟩

/-- Scalar multiple, as in THREE.Vector3.multiplyScalar. -/
def smul (s : ℚ) (v : Vec3) : Vec3 := ⟨s * v.x, s * v.y, s * v.z⟩

/-- Squared length x² + y² + z²; THREE.Vector3.length is Math.sqrt of
this quantity. -/
def normSq (v : Vec3) : ℚ := v.x * v.x + v.y * v.y + v.z * v.z

/-- Rotation of a vector by a quaternion, the exact componentwise formula
used by THREE.Vector3.applyQuaternion: t = 2 (q × v), then
v + w t + q × t. -/
def applyQuaternion (q : Quat) (v : Vec3) : Vec3 :=
  let tx := 2 * (q.qy * v.z - q.qz * v.y)
  let ty := 2 * (q.qz * v.x - q.qx * v.z)
  let tz := 2 * (q.qx * v.y - q.qy * v.x)
  ⟨v.x + q.qw * tx + q.qy * tz - q.qz * ty,
   v.y + q.qw * ty + q.qz * tx - q.qx * tz,
   v.z + q.qw * tz + q.qx * ty - q.qy * tx⟩

end Vec3

/-- External math and library operations the fish animation calls into:
Math.sin, Math.sqrt (used by THREE.Vector3.length), and the two quaternion
routines of the rendering library.  The animation step is parameterised
over them. -/
structure MathOps where
  sin : ℚ → ℚ
  sqrt : ℚ → ℚ
  slerp : Quat → Quat → ℚ → Quat
  setFromUnitVectors : Vec3 → Vec3 → Quat

/-- Length of a vector as the code observes it through the library:
Math.sqrt of the squared norm. -/
def vecLength (ops : MathOps) (v : Vec3) : ℚ := ops.sqrt (Vec3.normSq v)

/-- Normalisation as THREE.Vector3.normalize performs it: divide by
the length, guarding a zero length by dividing by 1 instead. -/
def vecNormalize (ops : MathOps) (v : Vec3) : Vec3 :=
  let l := vecLength ops v
  Vec3.smul (1 / (if l = 0 then 1 else l)) v

/-- Per-fish behaviour record attached as fish.userData by createFish
(main.js lines 420-430). -/
structure FishData where
  speed : ℚ
  turnSpeed : ℚ
  targetPosition : Vec3
  currentTarget : Vec3
  timeToNewTarget : ℚ
  size : ℚ
  tailSpeed : ℚ
  tailAngle : ℚ
  originalY : ℚ
deriving DecidableEq, Repr

/-- Mutable state of one fish: position and quaternion of the group, the
rotation.y of the tail mesh (fish.children[1], always present for a fish
built by createFish, which adds body, tail and two fins), and the
userData record. -/
structure Fish where
  position : Vec3
  quaternion : Quat
  tailRotY : ℚ
  userData : FishData
deriving DecidableEq, Repr

/-- Four Math.random() draws consumed by a retarget event in
animateFishes: three for the new target point, one for the next deadline. -/
structure RetargetRand where
  r1 : ℚ
  r2 : ℚ
  r3 : ℚ
  r4 : ℚ
deriving DecidableEq, Repr

/-- Each Math.random() value lies in [0, 1). -/
def RetargetRand.valid (r : RetargetRand) : Prop :=
  0 ≤ r.r1 ∧ r.r1 < 1 ∧ 0 ≤ r.r2 ∧ r.r2 < 1 ∧
  0 ≤ r.r3 ∧ r.r3 < 1 ∧ 0 ≤ r.r4 ∧ r.r4 < 1

instance (r : RetargetRand) : Decidable r.valid := by
  unfold RetargetRand.valid; infer_instance

/-- Tank half-width: const tankLimit = 9.0 in animateFishes. -/
def tankLimit : ℚ := 9

/-- Tank height bound: const tankHeight = 7.0 in animateFishes. -/
def tankHeight : ℚ := 7

/-- Raw (pre-clamp) target point drawn on a retarget
(main.js lines 873-877). -/
def rawTarget (rnd : RetargetRand) (originalY : ℚ) : Vec3 :=
  ⟨(rnd.r1 - 0.5) * tankLimit * 2,
   originalY + (rnd.r2 - 0.5) * 2,
   (rnd.r3 - 0.5) * tankLimit * 2⟩

/-- Clamp of the drawn target into the tank (main.js lines 880-882):
Math.max(-tankLimit, Math.min(tankLimit, v)) on x and z,
Math.max(1, Math.min(tankHeight, v)) on y. -/
def clampTarget (v : Vec3) : Vec3 :=
  ⟨max (-tankLimit) (min tankLimit v.x),
   max 1 (min tankHeight v.y),
   max (-tankLimit) (min tankLimit v.z)⟩

/-- Update of the userData record in one frame: the tail-angle assignment
(main.js line 863) and the retarget block guarded by
time > timeToNewTarget (lines 871-889). -/
def updatedData (ops : MathOps) (time : ℚ) (rnd : RetargetRand)
    (d : FishData) : FishData :=
  let tailAngle := ops.sin (time * d.tailSpeed) * 0.2
  let retarget := d.timeToNewTarget < time
  let targetPosition :=
    if retarget then clampTarget (rawTarget rnd d.originalY)
    else d.targetPosition
  let timeToNewTarget :=
    if retarget then time + 3 + rnd.r4 * 5 else d.timeToNewTarget
  let currentTarget := if retarget then targetPosition else d.currentTarget
  { d with tailAngle := tailAngle,
           targetPosition := targetPosition,
           timeToNewTarget := timeToNewTarget,
           currentTarget := currentTarget }

/-- One animation-frame update of a single fish: the body of the
fishes.forEach loop in animateFishes (main.js lines 859-911), with the
Math.random() draws of the frame passed in explicitly.  Order of effects
follows the source: tail angle, tail mesh rotation, retarget on timer
expiry, then the seek step guarded by direction.length() > 0.2, in which
forward is read from the quaternion before the slerp. -/
def animateFish (ops : MathOps) (time : ℚ) (rnd : RetargetRand)
    (fish : Fish) : Fish :=
  let d := updatedData ops time rnd fish.userData
  -- const direction = new THREE.Vector3().subVectors(currentTarget, fish.position)
  let direction := Vec3.sub d.currentTarget fish.position
  -- if (direction.length() > 0.2) { ... }
  if 0.2 < vecLength ops direction then
    let forward := Vec3.applyQuaternion fish.quaternion ⟨1, 0, 0⟩
    let targetQuaternion :=
      ops.setFromUnitVectors ⟨1, 0, 0⟩ (vecNormalize ops direction)
    let quaternion := ops.slerp fish.quaternion targetQuaternion d.turnSpeed
    -- fish.position.add(forward.multiplyScalar(speed * 0.05))
    let position :=
      Vec3.add fish.position (Vec3.smul (fish.userData.speed * 0.05) forward)
    { position := position, quaternion := quaternion,
      tailRotY := d.tailAngle, userData := d }
  else
    { position := fish.position, quaternion := fish.quaternion,
      tailRotY := d.tailAngle, userData := d }

/-! Plants (createPlants, main.js lines 641-706 and 916-981).  The file
defines createPlants twice; function hoisting makes the second definition
the one that runs.  Both are embedded below.  A plant is recorded by its
species together with the constructor arguments and position createPlants
gives it; the geometry built inside createHygrophila / createVallisneria /
createWillowMoss is below the level the claims mention.  Math.random()
draws are modelled as an oracle indexed by (species loop, loop iteration,
call site), since the generator calls inside each loop iteration consume a
data-dependent number of further draws from the shared stream. -/

/-- A color, mirroring THREE.Color with rational channels. -/
structure Color where
  r : ℚ
  g : ℚ
  b : ℚ
deriving DecidableEq, Repr

/-- Componentwise scaling, as in THREE.Color.multiplyScalar. -/
def Color.scale (s : ℚ) (c : Color) : Color := ⟨s * c.r, s * c.g, s * c.b⟩

/-- Default plant color 0x7cfc00 (bright yellow-green), used when no
plantColor argument is given. -/
def defaultPlantGreen : Color := ⟨124 / 255, 252 / 255, 0⟩

/-- One generated plant, identified by species, the arguments passed to
its generator, and the position assigned by createPlants. -/
inductive Plant
  | hygrophila (height radius : ℚ) (segments : ℕ) (color : Color)
      (variety : ℤ) (pos : Vec3)
  | vallisneria (height radius : ℚ) (color : Color) (pos : Vec3)
  | willowMoss (sz : ℚ) (color : Color) (pos : Vec3)
deriving DecidableEq, Repr

/-- Species test for hygrophila entries. -/
def Plant.isHygrophila : Plant → Bool
  | Plant.hygrophila _ _ _ _ _ _ => true
  | _ => false

/-- Species test for vallisneria entries. -/
def Plant.isVallisneria : Plant → Bool
  | Plant.vallisneria _ _ _ _ => true
  | _ => false

/-- Species test for willow-moss entries. -/
def Plant.isWillowMoss : Plant → Bool
  | Plant.willowMoss _ _ _ => true
  | _ => false

/-- First createPlants definition (main.js lines 641-706).  The loop
for (i = 0; i < count; i++) runs Int.toNat of the floored count many
times (zero when the floor is negative).  plantVariety is an integer by
the GUI control step(1). -/
def createPlantsFst (rand : ℕ → ℕ → ℕ → ℚ) (aquariumSize : ℚ)
    (plantColor : Option Color) (plantDensity : ℚ) (plantVariety : ℤ) :
    List Plant :=
  let color := plantColor.getD defaultPlantGreen
  let hygrophilaCount := (⌊(5 : ℚ) * plantDensity⌋).toNat
  let hygros := (List.range hygrophilaCount).map (fun i =>
    let x := (rand 0 i 0 - 0.5) * (aquariumSize - 2)
    let z := (rand 0 i 1 - 0.5) * (aquariumSize - 2)
    let height := 2.0 + rand 0 i 2 * 1.5
    let radius := 0.2 + rand 0 i 3 * 0.3
    let variety := ⌊rand 0 i 4 * ((min 5 plantVariety : ℤ) : ℚ)⌋
    Plant.hygrophila height radius 5 color variety ⟨x, 0.1, z⟩)
  let vallis :=
    if 2 ≤ plantVariety then
      let vallisneriaCount := (⌊(3 : ℚ) * plantDensity⌋).toNat
      (List.range vallisneriaCount).map (fun i =>
        let x := (rand 1 i 0 - 0.5) * (aquariumSize - 2)
        let z := (rand 1 i 1 - 0.5) * (aquariumSize - 2)
        let height := 3.5 + rand 1 i 2 * 2.0
        let radius := 0.1 + rand 1 i 3 * 0.2
        Plant.vallisneria height radius color ⟨x, 0.1, z⟩)
    else []
  let willowMossCount := (⌊(4 : ℚ) * plantDensity⌋).toNat
  let mosses := (List.range willowMossCount).map (fun i =>
    let x := (rand 2 i 0 - 0.5) * (aquariumSize - 3)
    let z := (rand 2 i 1 - 0.5) * (aquariumSize - 3)
    let sz := 0.4 + rand 2 i 2 * 0.3
    Plant.willowMoss sz color ⟨x, 0.05, z⟩)
  hygros ++ vallis ++ mosses

/-- Second createPlants definition (main.js lines 916-981), the one that
wins by function hoisting; its body is line-for-line the same as the
first. -/
def createPlantsSnd (rand : ℕ → ℕ → ℕ → ℚ) (aquariumSize : ℚ)
    (plantColor : Option Color) (plantDensity : ℚ) (plantVariety : ℤ) :
    List Plant :=
  let color := plantColor.getD defaultPlantGreen
  let hygrophilaCount := (⌊(5 : ℚ) * plantDensity⌋).toNat
  let hygros := (List.range hygrophilaCount).map (fun i =>
    let x := (rand 0 i 0 - 0.5) * (aquariumSize - 2)
    let z := (rand 0 i 1 - 0.5) * (aquariumSize - 2)
    let height := 2.0 + rand 0 i 2 * 1.5
    let radius := 0.2 + rand 0 i 3 * 0.3
    let variety := ⌊rand 0 i 4 * ((min 5 plantVariety : ℤ) : ℚ)⌋
    Plant.hygrophila height radius 5 color variety ⟨x, 0.1, z⟩)
  let vallis :=
    if 2 ≤ plantVariety then
      let vallisneriaCount := (⌊(3 : ℚ) * plantDensity⌋).toNat
      (List.range vallisneriaCount).map (fun i =>
        let x := (rand 1 i 0 - 0.5) * (aquariumSize - 2)
        let z := (rand 1 i 1 - 0.5) * (aquariumSize - 2)
        let height := 3.5 + rand 1 i 2 * 2.0
        let radius := 0.1 + rand 1 i 3 * 0.2
        Plant.vallisneria height radius color ⟨x, 0.1, z⟩)
    else []
  let willowMossCount := (⌊(4 : ℚ) * plantDensity⌋).toNat
  let mosses := (List.range willowMossCount).map (fun i =>
    let x := (rand 2 i 0 - 0.5) * (aquariumSize - 3)
    let z := (rand 2 i 1 - 0.5) * (aquariumSize - 3)
    let sz := 0.4 + rand 2 i 2 * 0.3
    Plant.willowMoss sz color ⟨x, 0.05, z⟩)
  hygros ++ vallis ++ mosses

/-! Plant recoloring (the plantColor onChange handler, main.js lines
190-212).  The handler traverses each plant; for a mesh child with a
colored material it tests the current green channel against 0.5 to decide
leaf versus stem, and for a point cloud (willow moss) it sets the chosen
color directly. -/

/-- Kind of a traversed scene-graph child carrying a colored material. -/
inductive ChildKind
  | mesh
  | points
deriving DecidableEq, Repr

/-- A child with its material color. -/
structure ChildMat where
  kind : ChildKind
  color : Color
deriving DecidableEq, Repr

/-- Action of the onChange handler on one traversed child
(main.js lines 193-209): a mesh whose material green channel exceeds 0.5
is treated as a leaf and set to the chosen color; any other mesh is
treated as a stem and set to the chosen color multiplied by 0.7; a point
cloud is set to the chosen color. -/
def recolorChild (val : Color) (c : ChildMat) : ChildMat :=
  match c.kind with
  | ChildKind.mesh =>
      if 0.5 < c.color.g then { c with color := val }
      else { c with color := Color.scale 0.7 val }
  | ChildKind.points => { c with color := val }

/-- Recoloring of a whole plant: the handler applied to every child. -/
def recolorPlant (val : Color) (cs : List ChildMat) : List ChildMat :=
  cs.map (recolorChild val)

/-- Leaf material color chosen by createHygrophila (main.js line 440):
the given plant color, or the default green. -/
def hygroLeafColor (plantColor : Option Color) : Color :=
  plantColor.getD defaultPlantGreen

/-- Stem material color chosen by createHygrophila (main.js line 441):
the leaf color multiplied by 0.7. -/
def hygroStemColor (plantColor : Option Color) : Color :=
  Color.scale 0.7 (hygroLeafColor plantColor)

/-! Top-level error handling (main.js lines 1025-1037). -/

/-- Fixed DOM element built in the top-level catch block
(main.js lines 1029-1036). -/
structure ErrorElement where
  textContent : String
  styleColor : String
  stylePosition : String
  styleTop : String
  styleLeft : String
  styleFontFamily : String
deriving DecidableEq, Repr

/-- Values assigned to the error element in the catch block. -/
def initErrorElement : ErrorElement :=
  { textContent :=
      "Error initializing the 3D scene. Check console for more details."
  , styleColor := "red"
  , stylePosition := "absolute"
  , styleTop := "10px"
  , styleLeft := "10px"
  , styleFontFamily := "monospace" }

/-- Outcome of the guarded initialization: either init returned normally,
or the error was logged to the console and an element appended to the
page body. -/
inductive InitOutcome (ε : Type)
  | ok
  | failed (logged : ε) (element : ErrorElement)
deriving DecidableEq, Repr

/-- Top-level guard try { init() } catch (error) { ... }
(main.js lines 1025-1037).  The fallible init is abstracted as a
computation supplied per attempt number; the guard runs attempt 0 exactly
once, logs a thrown error via console.error and appends the fixed
plain-text element, with no branching on the kind of error. -/
def runMain {ε : Type} (init : ℕ → Except ε Unit) : InitOutcome ε :=
  match init 0 with
  | Except.ok _ => InitOutcome.ok
  | Except.error e => InitOutcome.failed e initErrorElement

/-! Concrete fixtures used to instantiate the theorems below on closed
inputs. -/

/-- Concrete library operations with sqrt instantiated as the identity,
sin as the zero function, slerp returning its first argument and
setFromUnitVectors the identity quaternion. -/
def opsA : MathOps :=
  { sin := fun _ => 0
  , sqrt := fun q => q
  , slerp := fun a _ _ => a
  , setFromUnitVectors := fun _ _ => ⟨0, 0, 0, 1⟩ }

/-- Four draws of one half. -/
def rndHalf : RetargetRand := ⟨1/2, 1/2, 1/2, 1/2⟩

/-- A fish at rest height 4 with an expired retarget timer. -/
def fishA : Fish :=
  { position := ⟨0, 4, 0⟩
  , quaternion := ⟨0, 0, 0, 1⟩
  , tailRotY := 0
  , userData :=
    { speed := 0.6, turnSpeed := 0.03
    , targetPosition := ⟨0, 0, 0⟩, currentTarget := ⟨0, 0, 0⟩
    , timeToNewTarget := 0, size := 1, tailSpeed := 2, tailAngle := 0
    , originalY := 4 } }

/-- A fish far from its current target, timer not yet expired. -/
def fishB : Fish :=
  { fishA with
    userData :=
      { fishA.userData with
        timeToNewTarget := 100,
        targetPosition := ⟨5, 4, 0⟩,
        currentTarget := ⟨5, 4, 0⟩ } }

/-- A fish sitting exactly on its current target, timer not yet expired. -/
def fishC : Fish :=
  { fishA with
    userData :=
      { fishA.userData with
        timeToNewTarget := 100,
        targetPosition := ⟨0, 4, 0⟩,
        currentTarget := ⟨0, 4, 0⟩ } }

/-- A fish just inside the eastern tank wall, heading in the +x direction
with its current target across the tank. -/
def fishD : Fish :=
  { fishA with
    position := ⟨899/100, 4, 0⟩,
    userData :=
      { fishA.userData with
        timeToNewTarget := 100,
        targetPosition := ⟨0, 4, 0⟩,
        currentTarget := ⟨0, 4, 0⟩ } }

/-! Helper lemmas about the frame step. -/

/-- Both branches of the seek conditional carry the same updated userData. -/
theorem animateFish_userData (ops : MathOps) (t : ℚ) (rnd : RetargetRand)
    (fish : Fish) :
    (animateFish ops t rnd fish).userData = updatedData ops t rnd fish.userData := by
  simp only [animateFish]
  split <;> rfl

/-- Both branches of the seek conditional set the tail rotation to the
updated tail angle. -/
theorem animateFish_tailRotY (ops : MathOps) (t : ℚ) (rnd : RetargetRand)
    (fish : Fish) :
    (animateFish ops t rnd fish).tailRotY = (updatedData ops t rnd fish.userData).tailAngle := by
  simp only [animateFish]
  split <;> rfl

/-- Target position written by an expired timer. -/
theorem updatedData_targetPosition_of_fired (ops : MathOps) (t : ℚ)
    (rnd : RetargetRand) (d : FishData) (h : d.timeToNewTarget < t) :
    (updatedData ops t rnd d).targetPosition = clampTarget (rawTarget rnd d.originalY) := by
  simp [updatedData, h]

/-- Deadline written by an expired timer. -/
theorem updatedData_timeToNewTarget_of_fired (ops : MathOps) (t : ℚ)
    (rnd : RetargetRand) (d : FishData) (h : d.timeToNewTarget < t) :
    (updatedData ops t rnd d).timeToNewTarget = t + 3 + rnd.r4 * 5 := by
  simp [updatedData, h]

/-- Current target copied from the fresh target on an expired timer. -/
theorem updatedData_currentTarget_of_fired (ops : MathOps) (t : ℚ)
    (rnd : RetargetRand) (d : FishData) (h : d.timeToNewTarget < t) :
    (updatedData ops t rnd d).currentTarget = clampTarget (rawTarget rnd d.originalY) := by
  simp [updatedData, h]

/-- Current target untouched while the timer has not expired. -/
theorem updatedData_currentTarget_of_idle (ops : MathOps) (t : ℚ)
    (rnd : RetargetRand) (d : FishData) (h : ¬ d.timeToNewTarget < t) :
    (updatedData ops t rnd d).currentTarget = d.currentTarget := by
  simp [updatedData, h]

/-- Componentwise bounds of the clamped target. -/
theorem clampTarget_mem (v : Vec3) :
    -tankLimit ≤ (clampTarget v).x ∧ (clampTarget v).x ≤ tankLimit ∧
    1 ≤ (clampTarget v).y ∧ (clampTarget v).y ≤ tankHeight ∧
    -tankLimit ≤ (clampTarget v).z ∧ (clampTarget v).z ≤ tankLimit := by
  unfold clampTarget tankLimit tankHeight
  refine ⟨le_max_left _ _, ?_, le_max_left _ _, ?_, le_max_left _ _, ?_⟩ <;>
    exact max_le (by norm_num) (min_le_left _ _)

/-- C1: on a frame whose elapsed time exceeds the retarget deadline, a new
target is drawn and, after clamping, lies within x,z ∈ [-9,9] and
y ∈ [1,7]; before clamping its y component lies within the resting height
± 1; the current target is updated to it; and the next deadline is set to
the current time plus a value in [3,8). -/
theorem retarget_target_in_bounds (ops : MathOps) (t : ℚ)
    (rnd : RetargetRand) (fish : Fish)
    (hfire : fish.userData.timeToNewTarget < t) (hrnd : rnd.valid) :
    (animateFish ops t rnd fish).userData.targetPosition =
      clampTarget (rawTarget rnd fish.userData.originalY) ∧
    -tankLimit ≤ (animateFish ops t rnd fish).userData.targetPosition.x ∧
    (animateFish ops t rnd fish).userData.targetPosition.x ≤ tankLimit ∧
    1 ≤ (animateFish ops t rnd fish).userData.targetPosition.y ∧
    (animateFish ops t rnd fish).userData.targetPosition.y ≤ tankHeight ∧
    -tankLimit ≤ (animateFish ops t rnd fish).userData.targetPosition.z ∧
    (animateFish ops t rnd fish).userData.targetPosition.z ≤ tankLimit ∧
    fish.userData.originalY - 1 ≤ (rawTarget rnd fish.userData.originalY).y ∧
    (rawTarget rnd fish.userData.originalY).y < fish.userData.originalY + 1 ∧
    (animateFish ops t rnd fish).userData.currentTarget =
      (animateFish ops t rnd fish).userData.targetPosition ∧
    t + 3 ≤ (animateFish ops t rnd fish).userData.timeToNewTarget ∧
    (animateFish ops t rnd fish).userData.timeToNewTarget < t + 8 := by
  obtain ⟨-, -, h2a, h2b, -, -, h4a, h4b⟩ := hrnd
  have hu := animateFish_userData ops t rnd fish
  rw [hu, updatedData_targetPosition_of_fired ops t rnd fish.userData hfire,
    updatedData_timeToNewTarget_of_fired ops t rnd fish.userData hfire,
    updatedData_currentTarget_of_fired ops t rnd fish.userData hfire]
  obtain ⟨b1, b2, b3, b4, b5, b6⟩ :=
    clampTarget_mem (rawTarget rnd fish.userData.originalY)
  refine ⟨rfl, b1, b2, b3, b4, b5, b6, ?_, ?_, rfl, ?_, ?_⟩
  · simp only [rawTarget]
    linarith
  · simp only [rawTarget]
    linarith
  · nlinarith
  · nlinarith

/-- Witness for C1 at a concrete fish, frame time and random draws. -/
theorem retarget_target_in_bounds_witness :
    fishA.userData.timeToNewTarget < 1 ∧ RetargetRand.valid rndHalf ∧
    ((animateFish opsA 1 rndHalf fishA).userData.targetPosition =
      clampTarget (rawTarget rndHalf fishA.userData.originalY) ∧
    -tankLimit ≤ (animateFish opsA 1 rndHalf fishA).userData.targetPosition.x ∧
    (animateFish opsA 1 rndHalf fishA).userData.targetPosition.x ≤ tankLimit ∧
    1 ≤ (animateFish opsA 1 rndHalf fishA).userData.targetPosition.y ∧
    (animateFish opsA 1 rndHalf fishA).userData.targetPosition.y ≤ tankHeight ∧
    -tankLimit ≤ (animateFish opsA 1 rndHalf fishA).userData.targetPosition.z ∧
    (animateFish opsA 1 rndHalf fishA).userData.targetPosition.z ≤ tankLimit ∧
    fishA.userData.originalY - 1 ≤ (rawTarget rndHalf fishA.userData.originalY).y ∧
    (rawTarget rndHalf fishA.userData.originalY).y < fishA.userData.originalY + 1 ∧
    (animateFish opsA 1 rndHalf fishA).userData.currentTarget =
      (animateFish opsA 1 rndHalf fishA).userData.targetPosition ∧
    1 + 3 ≤ (animateFish opsA 1 rndHalf fishA).userData.timeToNewTarget ∧
    (animateFish opsA 1 rndHalf fishA).userData.timeToNewTarget < 1 + 8) := by
  have hfire : fishA.userData.timeToNewTarget < 1 := by norm_num [fishA]
  have hval : RetargetRand.valid rndHalf := by
    norm_num [rndHalf, RetargetRand.valid]
  exact ⟨hfire, hval, retarget_target_in_bounds opsA 1 rndHalf fishA hfire hval⟩

/-- C2: on a frame where the distance from the fish to its current target
(the one in force after any retarget of the same frame) exceeds 0.2, the
position advances by exactly speed * 0.05 along the forward direction read
from the quaternion at the start of the frame, and the quaternion is
slerped toward the rotation carrying (1,0,0) to the normalised target
direction by factor turnSpeed. -/
theorem seek_moves_forward_and_slerps (ops : MathOps) (t : ℚ)
    (rnd : RetargetRand) (fish : Fish)
    (h : 0.2 < vecLength ops
      (Vec3.sub (animateFish ops t rnd fish).userData.currentTarget fish.position)) :
    (animateFish ops t rnd fish).position =
      Vec3.add fish.position (Vec3.smul (fish.userData.speed * 0.05)
        (Vec3.applyQuaternion fish.quaternion ⟨1, 0, 0⟩)) ∧
    (animateFish ops t rnd fish).quaternion =
      ops.slerp fish.quaternion
        (ops.setFromUnitVectors ⟨1, 0, 0⟩
          (vecNormalize ops
            (Vec3.sub (animateFish ops t rnd fish).userData.currentTarget fish.position)))
        fish.userData.turnSpeed := by
  have hu := animateFish_userData ops t rnd fish
  rw [hu] at h ⊢
  simp only [animateFish]
  rw [if_pos h]
  exact ⟨rfl, rfl⟩

/-- Witness for C2 at a concrete seeking fish. -/
theorem seek_moves_forward_and_slerps_witness :
    0.2 < vecLength opsA
      (Vec3.sub (animateFish opsA 1 rndHalf fishB).userData.currentTarget fishB.position) ∧
    ((animateFish opsA 1 rndHalf fishB).position =
      Vec3.add fishB.position (Vec3.smul (fishB.userData.speed * 0.05)
        (Vec3.applyQuaternion fishB.quaternion ⟨1, 0, 0⟩)) ∧
    (animateFish opsA 1 rndHalf fishB).quaternion =
      opsA.slerp fishB.quaternion
        (opsA.setFromUnitVectors ⟨1, 0, 0⟩
          (vecNormalize opsA
            (Vec3.sub (animateFish opsA 1 rndHalf fishB).userData.currentTarget fishB.position)))
        fishB.userData.turnSpeed) := by
  have hidle : ¬ fishB.userData.timeToNewTarget < 1 := by norm_num [fishB, fishA]
  have h : 0.2 < vecLength opsA
      (Vec3.sub (animateFish opsA 1 rndHalf fishB).userData.currentTarget fishB.position) := by
    rw [animateFish_userData,
      updatedData_currentTarget_of_idle opsA 1 rndHalf fishB.userData hidle]
    norm_num [fishB, fishA, opsA, vecLength, Vec3.normSq, Vec3.sub]
  exact ⟨h, seek_moves_forward_and_slerps opsA 1 rndHalf fishB h⟩

/-- C3: on a frame where the retarget timer has not fired and the distance
from the fish to its current target is at most 0.2, the animation step
changes neither the position nor the quaternion of the fish. -/
theorem arrived_no_motion (ops : MathOps) (t : ℚ) (rnd : RetargetRand)
    (fish : Fish) (hidle : ¬ fish.userData.timeToNewTarget < t)
    (hnear : vecLength ops
      (Vec3.sub fish.userData.currentTarget fish.position) ≤ 0.2) :
    (animateFish ops t rnd fish).position = fish.position ∧
    (animateFish ops t rnd fish).quaternion = fish.quaternion := by
  have hct := updatedData_currentTarget_of_idle ops t rnd fish.userData hidle
  simp only [animateFish]
  rw [hct, if_neg (not_lt.mpr hnear)]
  exact ⟨rfl, rfl⟩

/-- Witness for C3 at a fish sitting on its target. -/
theorem arrived_no_motion_witness :
    ¬ fishC.userData.timeToNewTarget < 1 ∧
    vecLength opsA (Vec3.sub fishC.userData.currentTarget fishC.position) ≤ 0.2 ∧
    ((animateFish opsA 1 rndHalf fishC).position = fishC.position ∧
    (animateFish opsA 1 rndHalf fishC).quaternion = fishC.quaternion) := by
  have hidle : ¬ fishC.userData.timeToNewTarget < 1 := by norm_num [fishC, fishA]
  have hnear : vecLength opsA
      (Vec3.sub fishC.userData.currentTarget fishC.position) ≤ 0.2 := by
    norm_num [fishC, fishA, opsA, vecLength, Vec3.normSq, Vec3.sub]
  exact ⟨hidle, hnear, arrived_no_motion opsA 1 rndHalf fishC hidle hnear⟩

/-- C4: the tank-bound invariant is soft.  Every target point written by a
retarget is clamped into x,z ∈ [-9,9], y ∈ [1,7], which is the only
mechanism keeping fish near the tank; the step itself never clamps the
position: a fish inside the bounds (here at x = 8.99, heading +x with a
far target) leaves x ≤ 9 in a single frame. -/
theorem tank_bounds_soft (ops : MathOps) (t : ℚ) (rnd : RetargetRand)
    (fish : Fish) (hfire : fish.userData.timeToNewTarget < t) :
    (-tankLimit ≤ (animateFish ops t rnd fish).userData.targetPosition.x ∧
     (animateFish ops t rnd fish).userData.targetPosition.x ≤ tankLimit ∧
     1 ≤ (animateFish ops t rnd fish).userData.targetPosition.y ∧
     (animateFish ops t rnd fish).userData.targetPosition.y ≤ tankHeight ∧
     -tankLimit ≤ (animateFish ops t rnd fish).userData.targetPosition.z ∧
     (animateFish ops t rnd fish).userData.targetPosition.z ≤ tankLimit) ∧
    (-tankLimit ≤ fishD.position.x ∧ fishD.position.x ≤ tankLimit ∧
     -tankLimit ≤ fishD.position.z ∧ fishD.position.z ≤ tankLimit ∧
     1 ≤ fishD.position.y ∧ fishD.position.y ≤ tankHeight ∧
     tankLimit < (animateFish opsA 1 rndHalf fishD).position.x) := by
  constructor
  · rw [animateFish_userData,
      updatedData_targetPosition_of_fired ops t rnd fish.userData hfire]
    exact clampTarget_mem _
  · norm_num [fishD, fishA, tankLimit, tankHeight, animateFish, updatedData,
      opsA, rndHalf, vecLength, Vec3.normSq, Vec3.sub, Vec3.add, Vec3.smul,
      Vec3.applyQuaternion]

/-- Witness for C4 at a concrete expired timer. -/
theorem tank_bounds_soft_witness :
    fishA.userData.timeToNewTarget < 1 ∧
    ((-tankLimit ≤ (animateFish opsA 1 rndHalf fishA).userData.targetPosition.x ∧
     (animateFish opsA 1 rndHalf fishA).userData.targetPosition.x ≤ tankLimit ∧
     1 ≤ (animateFish opsA 1 rndHalf fishA).userData.targetPosition.y ∧
     (animateFish opsA 1 rndHalf fishA).userData.targetPosition.y ≤ tankHeight ∧
     -tankLimit ≤ (animateFish opsA 1 rndHalf fishA).userData.targetPosition.z ∧
     (animateFish opsA 1 rndHalf fishA).userData.targetPosition.z ≤ tankLimit) ∧
    (-tankLimit ≤ fishD.position.x ∧ fishD.position.x ≤ tankLimit ∧
     -tankLimit ≤ fishD.position.z ∧ fishD.position.z ≤ tankLimit ∧
     1 ≤ fishD.position.y ∧ fishD.position.y ≤ tankHeight ∧
     tankLimit < (animateFish opsA 1 rndHalf fishD).position.x)) := by
  have hfire : fishA.userData.timeToNewTarget < 1 := by norm_num [fishA]
  exact ⟨hfire, tank_bounds_soft opsA 1 rndHalf fishA hfire⟩

/-- C6: for every nonnegative density, createPlants (the hoisted second
definition) generates exactly floor(5 * density) hygrophila plants,
floor(3 * density) vallisneria when plantVariety ≥ 2 and none otherwise,
and floor(4 * density) willow-moss clusters, independently of the random
draws, the tank size and the color. -/
theorem plant_counts_scale_with_density (rand : ℕ → ℕ → ℕ → ℚ)
    (aquariumSize : ℚ) (plantColor : Option Color) (plantDensity : ℚ)
    (plantVariety : ℤ) (hd : 0 ≤ plantDensity) :
    (((createPlantsSnd rand aquariumSize plantColor plantDensity
        plantVariety).countP Plant.isHygrophila : ℕ) : ℤ) =
      ⌊(5 : ℚ) * plantDensity⌋ ∧
    (((createPlantsSnd rand aquariumSize plantColor plantDensity
        plantVariety).countP Plant.isVallisneria : ℕ) : ℤ) =
      (if 2 ≤ plantVariety then ⌊(3 : ℚ) * plantDensity⌋ else 0) ∧
    (((createPlantsSnd rand aquariumSize plantColor plantDensity
        plantVariety).countP Plant.isWillowMoss : ℕ) : ℤ) =
      ⌊(4 : ℚ) * plantDensity⌋ := by
  have h5 : (0 : ℤ) ≤ ⌊(5 : ℚ) * plantDensity⌋ :=
    Int.floor_nonneg.mpr (mul_nonneg (by norm_num) hd)
  have h3 : (0 : ℤ) ≤ ⌊(3 : ℚ) * plantDensity⌋ :=
    Int.floor_nonneg.mpr (mul_nonneg (by norm_num) hd)
  have h4 : (0 : ℤ) ≤ ⌊(4 : ℚ) * plantDensity⌋ :=
    Int.floor_nonneg.mpr (mul_nonneg (by norm_num) hd)
  by_cases hv : 2 ≤ plantVariety <;>
    refine ⟨?_, ?_, ?_⟩ <;>
      simp only [createPlantsSnd, hv, if_true, if_false, ite_true, ite_false,
        List.countP_append, List.countP_nil, List.countP_map,
        Function.comp_def, Plant.isHygrophila, Plant.isVallisneria,
        Plant.isWillowMoss, List.countP_true, List.countP_false,
        Function.const_apply, List.length_range] <;>
      omega

/-- Witness for C6 at density 1 and variety 3: exactly 5, 3 and 4 plants. -/
theorem plant_counts_scale_with_density_witness :
    (0 : ℚ) ≤ 1 ∧
    ((((createPlantsSnd (fun _ _ _ => 1/2) 20 none 1 3).countP
        Plant.isHygrophila : ℕ) : ℤ) = ⌊(5 : ℚ) * 1⌋ ∧
    (((createPlantsSnd (fun _ _ _ => 1/2) 20 none 1 3).countP
        Plant.isVallisneria : ℕ) : ℤ) =
      (if 2 ≤ (3 : ℤ) then ⌊(3 : ℚ) * 1⌋ else 0) ∧
    (((createPlantsSnd (fun _ _ _ => 1/2) 20 none 1 3).countP
        Plant.isWillowMoss : ℕ) : ℤ) = ⌊(4 : ℚ) * 1⌋) :=
  ⟨by norm_num,
    plant_counts_scale_with_density (fun _ _ _ => 1/2) 20 none 1 3 (by norm_num)⟩

/-- C5: on every frame at elapsed time t, the animation step sets the tail
angle, and the tail mesh rotation, to sin(t * tailSpeed) * 0.2, for every
fish state (seeking or arrived) and independently of position and of the
random draws of the frame. -/
theorem tail_angle_every_frame (ops : MathOps) (t : ℚ) (rnd : RetargetRand)
    (fish : Fish) :
    (animateFish ops t rnd fish).userData.tailAngle =
      ops.sin (t * fish.userData.tailSpeed) * 0.2 ∧
    (animateFish ops t rnd fish).tailRotY =
      ops.sin (t * fish.userData.tailSpeed) * 0.2 := by
  rw [animateFish_userData, animateFish_tailRotY]
  exact ⟨rfl, rfl⟩

/-- C9: the animation step never modifies the creation-time parameters
speed, turnSpeed, tailSpeed, size and originalY; within userData only
tailAngle, targetPosition, timeToNewTarget and currentTarget are written,
and the tail mesh rotation is set exactly to the new tailAngle (position
and quaternion being the remaining mutated fields of the fish). -/
theorem animation_preserves_creation_params (ops : MathOps) (t : ℚ)
    (rnd : RetargetRand) (fish : Fish) :
    (animateFish ops t rnd fish).userData.speed = fish.userData.speed ∧
    (animateFish ops t rnd fish).userData.turnSpeed = fish.userData.turnSpeed ∧
    (animateFish ops t rnd fish).userData.tailSpeed = fish.userData.tailSpeed ∧
    (animateFish ops t rnd fish).userData.size = fish.userData.size ∧
    (animateFish ops t rnd fish).userData.originalY = fish.userData.originalY ∧
    (animateFish ops t rnd fish).userData =
      { fish.userData with
        tailAngle := (animateFish ops t rnd fish).userData.tailAngle,
        targetPosition := (animateFish ops t rnd fish).userData.targetPosition,
        timeToNewTarget := (animateFish ops t rnd fish).userData.timeToNewTarget,
        currentTarget := (animateFish ops t rnd fish).userData.currentTarget } ∧
    (animateFish ops t rnd fish).tailRotY =
      (animateFish ops t rnd fish).userData.tailAngle := by
  rw [animateFish_userData, animateFish_tailRotY]
  exact ⟨rfl, rfl, rfl, rfl, rfl, rfl, rfl⟩

/-- C10: the two textually identical createPlants definitions are
extensionally equal: on every input and every random oracle they produce
the same list of plants (same counts, species, generator arguments and
positions), so the second definition shadowing the first by hoisting does
not change behaviour. -/
theorem createPlants_defs_agree (rand : ℕ → ℕ → ℕ → ℚ) (aquariumSize : ℚ)
    (plantColor : Option Color) (plantDensity : ℚ) (plantVariety : ℤ) :
    createPlantsFst rand aquariumSize plantColor plantDensity plantVariety =
      createPlantsSnd rand aquariumSize plantColor plantDensity plantVariety := rfl

/-- C8: any exception thrown during initialization is caught by the single
top-level guard, which logs the error to the console and appends the fixed
plain-text error element; the outcome depends only on the first (and only)
attempt, so no retry happens, and the appended element is the same for
every error. -/
theorem init_failure_logged_and_reported {ε : Type}
    (init g : ℕ → Except ε Unit) (e : ε)
    (h : init 0 = Except.error e) (hg : init 0 = g 0) :
    runMain init = InitOutcome.failed e initErrorElement ∧
    runMain init = runMain g := by
  unfold runMain
  rw [h, ← hg, h]
  exact ⟨rfl, rfl⟩

/-- Witness for C8 at a concrete failing init. -/
theorem init_failure_logged_and_reported_witness :
    (fun _ : ℕ => (Except.error "boom" : Except String Unit)) 0 =
      Except.error "boom" ∧
    (fun _ : ℕ => (Except.error "boom" : Except String Unit)) 0 =
      (fun n : ℕ => if n = 0 then Except.error "boom" else Except.ok ()) 0 ∧
    (runMain (fun _ : ℕ => (Except.error "boom" : Except String Unit)) =
      InitOutcome.failed "boom" initErrorElement ∧
    runMain (fun _ : ℕ => (Except.error "boom" : Except String Unit)) =
      runMain (fun n : ℕ => if n = 0 then Except.error "boom" else Except.ok ())) :=
  ⟨rfl, rfl,
    init_failure_logged_and_reported
      (fun _ => Except.error "boom")
      (fun n => if n = 0 then Except.error "boom" else Except.ok ())
      "boom" rfl rfl⟩

/-- C7 (failing): the recolor handler classifies leaf versus stem by the
current green channel exceeding 0.5, but the stem material created by
createHygrophila from the default plant color 0x7cfc00 has green channel
0.7 * 252/255 > 0.5, so the handler sets such a stem to the full chosen
color (here pure red) instead of the chosen color scaled by 0.7: the
claimed stem-versus-leaf darkness distinction is destroyed. -/
theorem recolor_stem_misclassified :
    0.5 < (hygroStemColor none).g ∧
    recolorChild ⟨1, 0, 0⟩ ⟨ChildKind.mesh, hygroStemColor none⟩ =
      ⟨ChildKind.mesh, ⟨1, 0, 0⟩⟩ ∧
    (⟨1, 0, 0⟩ : Color) ≠ Color.scale 0.7 ⟨1, 0, 0⟩ := by
  have hg : (0.5 : ℚ) < (hygroStemColor none).g := by
    norm_num [hygroStemColor, hygroLeafColor, defaultPlantGreen, Color.scale]
  refine ⟨hg, ?_, ?_⟩
  · simp [recolorChild, hg]
  · simp only [Color.scale, ne_eq, Color.mk.injEq]
    norm_num

end DigitalAquarium
